import Mathlib

/-!
Verification development for the module-federation consume-shared module of
the rspack bundler, a shallow embedding of
crates/rspack_plugin_mf/src/sharing/consume_shared_module.rs.

The entity models a consumable shared dependency: identity derivation from
the sharing configuration, build-time construction of the outgoing
dependency graph (eager direct edge vs. deferred sub-graph), and code
generation composing a runtime loader invocation plus a structured payload.

External collaborator types (the options struct, the hashing primitive, the
factory expression builders, runtime globals) are not under the embedded
source file; they are modelled from the specification at their interface,
each marked `Modelled from the spec` in its doc comment.
-/

/-- Modelled from the spec: the `VersionRange` carried by
`required_version` (`ConsumeVersion` of `crate::ConsumeOptions`, a type not
under src/). The source only uses its stringification (`v.to_string()`),
so it is represented by its display text. -/
structure ConsumeVersion where
  text : String
deriving DecidableEq

/-- Display of a version range, mirroring `v.to_string()`. -/
def ConsumeVersion.toString (v : ConsumeVersion) : String :=
  v.text

/-- Modelled from the spec: `SharingOptions` (`crate::ConsumeOptions`, not
under src/): registry scope and key, version constraint, policy flags,
fallback request and its resolved path. The source field named `import` is
called `import_request` here because `import` is a Lean keyword. -/
structure ConsumeOptions where
  share_scope : String
  share_key : String
  required_version : Option ConsumeVersion
  strict_version : Bool
  singleton : Bool
  import_request : Option String
  import_resolved : Option String
  eager : Bool
deriving DecidableEq

/-- The fallback dependency constructed for `options.import`
(`ConsumeSharedFallbackDependency::new(fallback)`), carrying the request. -/
structure ConsumeSharedFallbackDependency where
  request : String
deriving DecidableEq

def ConsumeSharedFallbackDependency.new (request : String) :
    ConsumeSharedFallbackDependency :=
  { request := request }

/-- An asynchronous dependencies block (`AsyncDependenciesBlock::new(ident,
None)` followed by `add_dependency`): the deferred sub-graph wrapping the
fallback dependency. -/
structure AsyncDependenciesBlock where
  parent : String
  dependencies : List ConsumeSharedFallbackDependency
deriving DecidableEq

def AsyncDependenciesBlock.new (parent : String) : AsyncDependenciesBlock :=
  { parent := parent, dependencies := [] }

def AsyncDependenciesBlock.add_dependency (b : AsyncDependenciesBlock)
    (d : ConsumeSharedFallbackDependency) : AsyncDependenciesBlock :=
  { b with dependencies := b.dependencies ++ [d] }

/-- The canonical identifier string composed in `ConsumeSharedModule::new`
(source lines 36-56): version defaults to "*" when absent, each marker is a
fixed annotation appended when its flag or field is set. Note the singleton
marker reuses the text " (strict)" exactly as the source does. -/
def identifierOf (o : ConsumeOptions) : String :=
  "consume shared module (" ++ o.share_scope ++ ") " ++ o.share_key ++ "@"
    ++ (match o.required_version with
        | some v => v.toString
        | none => "*")
    ++ (if o.strict_version then " (strict)" else "")
    ++ (if o.singleton then " (strict)" else "")
    ++ (match o.import_resolved with
        | some f => " (fallback: " ++ f ++ ")"
        | none => "")
    ++ (if o.eager then " (eager)" else "")

/-- The `ConsumeSharedModule` entity. `ModuleIdentifier` is an interned
string in the source, so it is represented by the string itself; the
dependency and block id arenas are collapsed, the entity storing the
dependency and block values directly. -/
structure ConsumeSharedModule where
  blocks : List AsyncDependenciesBlock
  dependencies : List ConsumeSharedFallbackDependency
  identifier : String
  lib_ident : String
  readable_identifier : String
  context : String
  options : ConsumeOptions
deriving DecidableEq

/-- `ConsumeSharedModule::new`: derives the canonical identifier, the
lib_ident path and the readable identifier, retains options verbatim, and
starts with empty block and dependency lists. -/
def ConsumeSharedModule.new (context : String) (options : ConsumeOptions) :
    ConsumeSharedModule :=
  let identifier := identifierOf options
  { blocks := []
    dependencies := []
    identifier := identifier
    lib_ident :=
      "webpack/sharing/consume/" ++ options.share_scope ++ "/"
        ++ options.share_key
        ++ (match options.import_request with
            | some r => "/" ++ r
            | none => "")
    readable_identifier := identifier
    context := context
    options := options }

/-- `DependenciesBlock::add_block_id`. -/
def ConsumeSharedModule.add_block_id (m : ConsumeSharedModule)
    (b : AsyncDependenciesBlock) : ConsumeSharedModule :=
  { m with blocks := m.blocks ++ [b] }

/-- `DependenciesBlock::add_dependency_id`. -/
def ConsumeSharedModule.add_dependency_id (m : ConsumeSharedModule)
    (d : ConsumeSharedFallbackDependency) : ConsumeSharedModule :=
  { m with dependencies := m.dependencies ++ [d] }

/-- `DependenciesBlock::get_blocks`. -/
def ConsumeSharedModule.get_blocks (m : ConsumeSharedModule) :
    List AsyncDependenciesBlock :=
  m.blocks

/-- `DependenciesBlock::get_dependencies`. -/
def ConsumeSharedModule.get_dependencies (m : ConsumeSharedModule) :
    List ConsumeSharedFallbackDependency :=
  m.dependencies

/-- Modelled from the spec: the compiler output-hashing configuration
(`compiler_options.output` of rspack_core, not under src/), reduced to the
two pieces `build` reads: the hash function seeding `RspackHash::from` and
the digest configuration passed to `digest`. -/
structure OutputOptions where
  hash_function : String
  hash_digest : String
deriving DecidableEq

/-- The data the entity feeds into the hasher (`self.update_hash(&mut
hasher)` dispatches to the `Hash` impl, source lines 229-234): a fixed
internal type tag followed by the canonical identifier. -/
def ConsumeSharedModule.hashTrace (m : ConsumeSharedModule) : List String :=
  ["__rspack_internal__ConsumeSharedModule", m.identifier]

/-- Modelled from the spec: the injected incremental hash function
(rspack_hash, not under src/) is opaque and deterministic, so a digest is
represented by the exact data fed to it: the output-hash configuration
together with the sequence of hashed values. -/
def digestOf (output : OutputOptions) (m : ConsumeSharedModule) :
    OutputOptions × List String :=
  (output, m.hashTrace)

/-- Build info, keeping the field `build` fills: the content hash. -/
structure BuildInfo where
  hash_value : Option (OutputOptions × List String)
deriving DecidableEq

/-- The result of `ConsumeSharedModule::build`. -/
structure BuildResult where
  build_info : BuildInfo
  dependencies : List ConsumeSharedFallbackDependency
  blocks : List AsyncDependenciesBlock
deriving DecidableEq

/-- `ConsumeSharedModule::build` (source lines 136-164): computes the
fingerprint digest, then, when `options.import` is present, constructs one
fallback dependency, pushed directly when eager and wrapped in one async
block otherwise; the source returns `Ok` unconditionally. -/
def ConsumeSharedModule.build (m : ConsumeSharedModule)
    (output : OutputOptions) : BuildResult :=
  let hash := digestOf output m
  let (dependencies, blocks) :=
    match m.options.import_request with
    | none => ([], [])
    | some fallback =>
      let dep := ConsumeSharedFallbackDependency.new fallback
      if m.options.eager then
        ([dep], [])
      else
        let block := (AsyncDependenciesBlock.new m.identifier).add_dependency dep
        ([], [block])
  { build_info := { hash_value := some hash }
    dependencies := dependencies
    blocks := blocks }

/-- The external module-graph pipeline registers a build result's
dependencies and blocks on the module through the `DependenciesBlock`
methods. -/
def registerBuildResult (m : ConsumeSharedModule) (r : BuildResult) :
    ConsumeSharedModule :=
  let m1 := r.dependencies.foldl ConsumeSharedModule.add_dependency_id m
  r.blocks.foldl ConsumeSharedModule.add_block_id m1

/-- Modelled from the spec: runtime capability requirements
(`RuntimeGlobals` of rspack_core, not under src/); only `SHARE_SCOPE_MAP`
is named by the source, factories may contribute others. -/
inductive RuntimeGlobal where
  | SHARE_SCOPE_MAP : RuntimeGlobal
  | other : String → RuntimeGlobal
deriving DecidableEq

/-- Insertion into the requirement set (sets are kept as duplicate-free
lists). -/
def insertRequirement (s : List RuntimeGlobal) (g : RuntimeGlobal) :
    List RuntimeGlobal :=
  if g ∈ s then s else s ++ [g]

/-- The loader invocation composed inside `code_generation` (source lines
176-193): the function name suffixes and the stringified literal arguments,
with the JSON stringification utility passed in as a parameter
(`crate::utils::json_stringify` is not under src/). -/
def loaderCall (stringify : String → String) (o : ConsumeOptions) :
    String × List String :=
  let f := "loaders.load"
  let args := [stringify o.share_scope, stringify o.share_key]
  match o.required_version with
  | some version =>
    let f := if o.strict_version then f ++ "Strict" else f
    let f := if o.singleton then f ++ "Singleton" else f
    let args := args ++ ["loaders.parseRange(" ++ stringify version.toString ++ ")"]
    (f ++ "VersionCheck", args)
  | none =>
    if o.singleton then (f ++ "Singleton", args) else (f, args)

/-- The structured payload `CodeGenerationDataConsumeShared` inserted into
the code-generation result (source lines 211-222). The fallback factory
expression is carried as its generated text. -/
structure CodeGenerationDataConsumeShared where
  share_scope : String
  share_key : String
  import_request : Option String
  required_version : Option ConsumeVersion
  strict_version : Bool
  singleton : Bool
  eager : Bool
  fallback : Option String
deriving DecidableEq

/-- The code-generation result: the runtime requirement set and the single
typed data entry this module inserts. -/
structure CodeGenerationResult where
  runtime_requirements : List RuntimeGlobal
  data : CodeGenerationDataConsumeShared
deriving DecidableEq

/-- Modelled from the spec: the external expression-builder collaborators
(`sync_module_factory` and `async_module_factory` of rspack_core, not under
src/). Each takes the dependency or block handle and the fallback request
and returns the factory expression together with the extra capability
requirements it adds. -/
structure FactoryBuilders where
  sync_factory :
    ConsumeSharedFallbackDependency → String → String × List RuntimeGlobal
  async_factory :
    AsyncDependenciesBlock → String → String × List RuntimeGlobal

/-- Modelled from the spec: a runtime execution target (`RuntimeSpec`); the
source ignores it in `code_generation`. -/
structure RuntimeSpec where
  names : List String
deriving DecidableEq

/-- `ConsumeSharedModule::code_generation` (source lines 167-224): always
inserts `SHARE_SCOPE_MAP`, composes the loader invocation, obtains the
fallback factory (synchronous on `get_dependencies()[0]` when eager,
asynchronous on `get_blocks()[0]` otherwise — the source indexes with `[0]`
and panics on an empty list, modelled as `none`), and packages the payload
copied verbatim from options. The composed loader call is bound and then
dropped, as in the source. -/
def ConsumeSharedModule.code_generation (m : ConsumeSharedModule)
    (stringify : String → String) (builders : FactoryBuilders)
    (_runtime : Option RuntimeSpec) : Option CodeGenerationResult :=
  let reqs := insertRequirement [] RuntimeGlobal.SHARE_SCOPE_MAP
  let _call := loaderCall stringify m.options
  let payload := fun (factory : Option String) =>
    { share_scope := m.options.share_scope
      share_key := m.options.share_key
      import_request := m.options.import_request
      required_version := m.options.required_version
      strict_version := m.options.strict_version
      singleton := m.options.singleton
      eager := m.options.eager
      fallback := factory : CodeGenerationDataConsumeShared }
  match m.options.import_request with
  | none => some { runtime_requirements := reqs, data := payload none }
  | some fallback =>
    if m.options.eager then
      match m.get_dependencies.head? with
      | none => none
      | some d =>
        let pe := builders.sync_factory d fallback
        some { runtime_requirements := pe.2.foldl insertRequirement reqs
               data := payload (some pe.1) }
    else
      match m.get_blocks.head? with
      | none => none
      | some b =>
        let pe := builders.async_factory b fallback
        some { runtime_requirements := pe.2.foldl insertRequirement reqs
               data := payload (some pe.1) }

/-- `impl PartialEq for ConsumeSharedModule` (source lines 236-240):
equality compares the canonical identifiers. -/
def ConsumeSharedModule.moduleEq (a b : ConsumeSharedModule) : Bool :=
  a.identifier == b.identifier

/-! ## Helper lemmas on strings -/

theorem strCancelLeft {a b c : String} (h : a ++ b = a ++ c) : b = c := by
  apply String.ext
  have hd : a.data ++ b.data = a.data ++ c.data := by
    simpa [String.data_append] using congrArg String.data h
  exact List.append_cancel_left hd

theorem strCancelRight {a b c : String} (h : a ++ c = b ++ c) : a = b := by
  apply String.ext
  have hd : a.data ++ c.data = b.data ++ c.data := by
    simpa [String.data_append] using congrArg String.data h
  exact List.append_cancel_right hd

theorem strNeOfLength {a b : String} (h : a.length ≠ b.length) : a ≠ b :=
  fun he => h (congrArg String.length he)

/-! ## Spec-side loader composition (refinement target for the loader call)

These two definitions follow the specification's pseudocode for the loader
invocation (spec section 4.3 step 2), to be compared with `loaderCall`,
which is translated from the source. -/

/-- The loader function name as the spec's pseudocode composes it. -/
def specLoaderName (o : ConsumeOptions) : String :=
  "loaders.load"
    ++ (match o.required_version with
        | some _ =>
          (if o.strict_version then "Strict" else "")
            ++ (if o.singleton then "Singleton" else "")
            ++ "VersionCheck"
        | none => if o.singleton then "Singleton" else "")

/-- The loader argument list as the spec's pseudocode composes it. -/
def specLoaderArgs (stringify : String → String) (o : ConsumeOptions) :
    List String :=
  [stringify o.share_scope, stringify o.share_key]
    ++ (match o.required_version with
        | some v => ["loaders.parseRange(" ++ stringify v.toString ++ ")"]
        | none => [])

/-! ## Claim theorems -/

/-- C1: after build, when `options.import` is present exactly one of (one
direct edge, no deferred block) or (no edge, one deferred block) holds,
chosen by `eager`; when absent both lists are empty; they are never both
non-empty. -/
theorem consume_shared_build_edge_dichotomy
    (context : String) (output : OutputOptions) (o : ConsumeOptions)
    (r : BuildResult)
    (hr : r = (ConsumeSharedModule.new context o).build output) :
    (o.import_request.isSome = true →
      (o.eager = true → r.dependencies.length = 1 ∧ r.blocks.length = 0) ∧
      (o.eager = false → r.dependencies.length = 0 ∧ r.blocks.length = 1)) ∧
    (o.import_request = none → r.dependencies = [] ∧ r.blocks = []) ∧
    ¬(r.dependencies ≠ [] ∧ r.blocks ≠ []) := by
  subst hr
  obtain ⟨s, k, rv, sv, sg, imp, ir, eg⟩ := o
  cases imp <;> cases eg <;>
    simp [ConsumeSharedModule.new, ConsumeSharedModule.build]

/-- Witness for C1: a concrete eager module with a fallback import builds
one direct edge and no deferred block. -/
theorem consume_shared_build_edge_dichotomy_witness :
    (((ConsumeSharedModule.new "ctx"
        ⟨"s", "k", none, false, false, some "m", none, true⟩).build
          ⟨"xxhash64", "hex"⟩).dependencies.length = 1 ∧
      ((ConsumeSharedModule.new "ctx"
        ⟨"s", "k", none, false, false, some "m", none, true⟩).build
          ⟨"xxhash64", "hex"⟩).blocks.length = 0) :=
  (consume_shared_build_edge_dichotomy "ctx" ⟨"xxhash64", "hex"⟩
      ⟨"s", "k", none, false, false, some "m", none, true⟩ _ rfl).1
    rfl |>.1 rfl

/-- C2: the loader invocation composed during code generation matches the
spec's composition for every options value and stringifier; strict_version
with no required_version never contributes a suffix; and the five table
cases produce the five loader family names. -/
theorem consume_shared_loader_call_matches_spec :
    (∀ (stringify : String → String) (o : ConsumeOptions),
      loaderCall stringify o = (specLoaderName o, specLoaderArgs stringify o)) ∧
    (∀ (stringify : String → String) (o : ConsumeOptions),
      o.required_version = none →
      loaderCall stringify { o with strict_version := true }
        = loaderCall stringify { o with strict_version := false }) ∧
    (loaderCall (fun s => s)
      ⟨"s", "k", none, false, false, none, none, false⟩).1 = "loaders.load" ∧
    (loaderCall (fun s => s)
      ⟨"s", "k", none, false, true, none, none, false⟩).1
        = "loaders.loadSingleton" ∧
    (loaderCall (fun s => s)
      ⟨"s", "k", some ⟨"1.0.0"⟩, false, false, none, none, false⟩).1
        = "loaders.loadVersionCheck" ∧
    (loaderCall (fun s => s)
      ⟨"s", "k", some ⟨"1.0.0"⟩, true, false, none, none, false⟩).1
        = "loaders.loadStrictVersionCheck" ∧
    (loaderCall (fun s => s)
      ⟨"s", "k", some ⟨"1.0.0"⟩, true, true, none, none, false⟩).1
        = "loaders.loadStrictSingletonVersionCheck" := by
  refine ⟨?_, ?_, rfl, rfl, rfl, rfl, rfl⟩
  · intro stringify o
    obtain ⟨s, k, rv, sv, sg, imp, ir, eg⟩ := o
    cases rv <;> cases sv <;> cases sg <;> rfl
  · intro stringify o h
    obtain ⟨s, k, rv, sv, sg, imp, ir, eg⟩ := o
    cases h
    rfl

/-- Witness for C2: the strict-without-version clause applied at a concrete
options value. -/
theorem consume_shared_loader_call_matches_spec_witness :
    loaderCall (fun s => s)
        ⟨"s", "k", none, true, false, none, none, false⟩
      = loaderCall (fun s => s)
        ⟨"s", "k", none, false, false, none, none, false⟩ :=
  consume_shared_loader_call_matches_spec.2.1 (fun s => s)
    ⟨"s", "k", none, false, false, none, none, false⟩ rfl

/-- C3 counterexample: at a concrete options value the lib_ident produced
by the source is not the claimed "sharing/consume/<scope>/<key>" string
(the source prefixes "webpack/"), both with and without an import. -/
theorem consume_shared_lib_ident_cex :
    (ConsumeSharedModule.new "ctx"
        ⟨"s", "k", none, false, false, none, none, false⟩).lib_ident
      ≠ "sharing/consume/s/k" ∧
    (ConsumeSharedModule.new "ctx"
        ⟨"s", "k", none, false, false, some "m", none, false⟩).lib_ident
      ≠ "sharing/consume/s/k/m" := by
  constructor <;> decide

/-- C3 amended: the lib_ident equals
"webpack/sharing/consume/<scope>/<key>", with "/<import>" appended exactly
when `options.import` is present; its derivation is total. -/
theorem consume_shared_lib_ident_format (context : String)
    (o : ConsumeOptions) :
    (o.import_request = none →
      (ConsumeSharedModule.new context o).lib_ident
        = "webpack/sharing/consume/" ++ o.share_scope ++ "/"
            ++ o.share_key) ∧
    (∀ r, o.import_request = some r →
      (ConsumeSharedModule.new context o).lib_ident
        = "webpack/sharing/consume/" ++ o.share_scope ++ "/"
            ++ o.share_key ++ "/" ++ r) := by
  constructor
  · intro h
    simp [ConsumeSharedModule.new, h]
  · intro r h
    simp [ConsumeSharedModule.new, h, String.append_assoc]

/-- Witness for C3's amended theorem at a concrete options value with
an import present. -/
theorem consume_shared_lib_ident_format_witness :
    (ConsumeSharedModule.new "ctx"
        ⟨"s", "k", none, false, false, some "m", none, false⟩).lib_ident
      = "webpack/sharing/consume/" ++ "s" ++ "/" ++ "k" ++ "/" ++ "m" :=
  (consume_shared_lib_ident_format "ctx"
      ⟨"s", "k", none, false, false, some "m", none, false⟩).2 "m" rfl

/-! ## Fingerprint -/

/-- The build fingerprint: the digest stored in the build info by `build`. -/
def fingerprintOf (output : OutputOptions) (context : String)
    (o : ConsumeOptions) : Option (OutputOptions × List String) :=
  ((ConsumeSharedModule.new context o).build output).build_info.hash_value

/-- The display of the version constraint in the canonical identifier:
the version's text, defaulting to "*" when absent. -/
def versionDisplay (rv : Option ConsumeVersion) : String :=
  match rv with
  | some v => v.toString
  | none => "*"

/-- A flag-controlled marker segment of the canonical identifier. -/
def flagMarker (b : Bool) (s : String) : String :=
  if b then s else ""

/-- The resolved-fallback marker segment of the canonical identifier. -/
def fallbackMarker (ir : Option String) : String :=
  match ir with
  | some f => " (fallback: " ++ f ++ ")"
  | none => ""

theorem identifierOf_mk (s k : String) (rv : Option ConsumeVersion)
    (sv sg : Bool) (imp ir : Option String) (eg : Bool) :
    identifierOf ⟨s, k, rv, sv, sg, imp, ir, eg⟩
      = "consume shared module ("
          ++ (s ++ (") " ++ (k ++ ("@" ++ (versionDisplay rv
          ++ (flagMarker sv " (strict)" ++ (flagMarker sg " (strict)"
          ++ (fallbackMarker ir ++ flagMarker eg " (eager)")))))))) := by
  cases rv <;> cases sv <;> cases sg <;> cases ir <;> cases eg <;>
    (apply String.ext;
     simp [identifierOf, versionDisplay, flagMarker, fallbackMarker,
       ConsumeVersion.toString, String.data_append])

theorem fingerprintOf_eq (output : OutputOptions) (context : String)
    (o : ConsumeOptions) :
    fingerprintOf output context o
      = some (output,
          ["__rspack_internal__ConsumeSharedModule", identifierOf o]) := by
  obtain ⟨s, k, rv, sv, sg, imp, ir, eg⟩ := o
  cases imp <;> cases eg <;>
    simp [fingerprintOf, ConsumeSharedModule.build, ConsumeSharedModule.new,
      digestOf, ConsumeSharedModule.hashTrace]

theorem fingerprint_eq_iff (output : OutputOptions) (c1 c2 : String)
    (o1 o2 : ConsumeOptions) :
    (fingerprintOf output c1 o1 = fingerprintOf output c2 o2)
      ↔ identifierOf o1 = identifierOf o2 := by
  rw [fingerprintOf_eq, fingerprintOf_eq]
  simp

theorem flagMarker_inj {b1 b2 : Bool} {s : String} (hs : s ≠ "")
    (h : flagMarker b1 s = flagMarker b2 s) : b1 = b2 := by
  cases b1 <;> cases b2 <;> simp_all [flagMarker]

theorem fallbackMarker_inj {x y : Option String}
    (h : fallbackMarker x = fallbackMarker y) : x = y := by
  cases x with
  | none =>
    cases y with
    | none => rfl
    | some g =>
      have hl := congrArg String.length h
      simp only [fallbackMarker, String.length_append] at hl
      rw [show ("" : String).length = 0 from rfl,
        show (" (fallback: " : String).length = 12 from rfl,
        show (")" : String).length = 1 from rfl] at hl
      omega
  | some f =>
    cases y with
    | none =>
      have hl := congrArg String.length h
      simp only [fallbackMarker, String.length_append] at hl
      rw [show ("" : String).length = 0 from rfl,
        show (" (fallback: " : String).length = 12 from rfl,
        show (")" : String).length = 1 from rfl] at hl
      omega
    | some g =>
      simp only [fallbackMarker] at h
      rw [String.append_assoc, String.append_assoc] at h
      exact congrArg some (strCancelRight (strCancelLeft h))

theorem versionDisplay_collision {rv1 rv2 : Option ConsumeVersion}
    (hne : rv1 ≠ rv2) (h : versionDisplay rv1 = versionDisplay rv2) :
    (rv1 = none ∧ rv2 = some ⟨"*"⟩) ∨ (rv1 = some ⟨"*"⟩ ∧ rv2 = none) := by
  cases rv1 with
  | none =>
    cases rv2 with
    | none => exact absurd rfl hne
    | some v =>
      obtain ⟨t⟩ := v
      simp only [versionDisplay, ConsumeVersion.toString] at h
      left
      exact ⟨rfl, by rw [← h]⟩
  | some v =>
    cases rv2 with
    | none =>
      obtain ⟨t⟩ := v
      simp only [versionDisplay, ConsumeVersion.toString] at h
      right
      exact ⟨by rw [h], rfl⟩
    | some w =>
      obtain ⟨t⟩ := v
      obtain ⟨u⟩ := w
      simp only [versionDisplay, ConsumeVersion.toString] at h
      exact absurd (by rw [h]) hne

theorem identifier_inj_scope (s1 s2 k : String) (rv : Option ConsumeVersion)
    (sv sg : Bool) (imp1 imp2 ir : Option String) (eg : Bool)
    (h : identifierOf ⟨s1, k, rv, sv, sg, imp1, ir, eg⟩
      = identifierOf ⟨s2, k, rv, sv, sg, imp2, ir, eg⟩) : s1 = s2 := by
  rw [identifierOf_mk, identifierOf_mk] at h
  exact strCancelRight (strCancelLeft h)

theorem identifier_inj_key (s k1 k2 : String) (rv : Option ConsumeVersion)
    (sv sg : Bool) (imp1 imp2 ir : Option String) (eg : Bool)
    (h : identifierOf ⟨s, k1, rv, sv, sg, imp1, ir, eg⟩
      = identifierOf ⟨s, k2, rv, sv, sg, imp2, ir, eg⟩) : k1 = k2 := by
  rw [identifierOf_mk, identifierOf_mk] at h
  exact strCancelRight (strCancelLeft (strCancelLeft (strCancelLeft h)))

theorem identifier_inj_version (s k : String)
    (rv1 rv2 : Option ConsumeVersion) (sv sg : Bool)
    (imp1 imp2 ir : Option String) (eg : Bool)
    (h : identifierOf ⟨s, k, rv1, sv, sg, imp1, ir, eg⟩
      = identifierOf ⟨s, k, rv2, sv, sg, imp2, ir, eg⟩) :
    versionDisplay rv1 = versionDisplay rv2 := by
  rw [identifierOf_mk, identifierOf_mk] at h
  exact strCancelRight
    (strCancelLeft (strCancelLeft (strCancelLeft (strCancelLeft
      (strCancelLeft h)))))

theorem identifier_inj_strict (s k : String) (rv : Option ConsumeVersion)
    (sv1 sv2 sg : Bool) (imp1 imp2 ir : Option String) (eg : Bool)
    (h : identifierOf ⟨s, k, rv, sv1, sg, imp1, ir, eg⟩
      = identifierOf ⟨s, k, rv, sv2, sg, imp2, ir, eg⟩) : sv1 = sv2 := by
  rw [identifierOf_mk, identifierOf_mk] at h
  have h6 := strCancelLeft (strCancelLeft (strCancelLeft (strCancelLeft
    (strCancelLeft (strCancelLeft h)))))
  exact flagMarker_inj (by decide) (strCancelRight h6)

theorem identifier_inj_singleton (s k : String) (rv : Option ConsumeVersion)
    (sv sg1 sg2 : Bool) (imp1 imp2 ir : Option String) (eg : Bool)
    (h : identifierOf ⟨s, k, rv, sv, sg1, imp1, ir, eg⟩
      = identifierOf ⟨s, k, rv, sv, sg2, imp2, ir, eg⟩) : sg1 = sg2 := by
  rw [identifierOf_mk, identifierOf_mk] at h
  have h7 := strCancelLeft (strCancelLeft (strCancelLeft (strCancelLeft
    (strCancelLeft (strCancelLeft (strCancelLeft h))))))
  exact flagMarker_inj (by decide) (strCancelRight h7)

theorem identifier_inj_resolved (s k : String) (rv : Option ConsumeVersion)
    (sv sg : Bool) (imp1 imp2 ir1 ir2 : Option String) (eg : Bool)
    (h : identifierOf ⟨s, k, rv, sv, sg, imp1, ir1, eg⟩
      = identifierOf ⟨s, k, rv, sv, sg, imp2, ir2, eg⟩) : ir1 = ir2 := by
  rw [identifierOf_mk, identifierOf_mk] at h
  have h8 := strCancelLeft (strCancelLeft (strCancelLeft (strCancelLeft
    (strCancelLeft (strCancelLeft (strCancelLeft (strCancelLeft h)))))))
  exact fallbackMarker_inj (strCancelRight h8)

theorem identifier_inj_eager (s k : String) (rv : Option ConsumeVersion)
    (sv sg : Bool) (imp1 imp2 ir : Option String) (eg1 eg2 : Bool)
    (h : identifierOf ⟨s, k, rv, sv, sg, imp1, ir, eg1⟩
      = identifierOf ⟨s, k, rv, sv, sg, imp2, ir, eg2⟩) : eg1 = eg2 := by
  rw [identifierOf_mk, identifierOf_mk] at h
  have h9 := strCancelLeft (strCancelLeft (strCancelLeft (strCancelLeft
    (strCancelLeft (strCancelLeft (strCancelLeft (strCancelLeft
      (strCancelLeft h))))))))
  exact flagMarker_inj (by decide) h9

/-- C4 counterexample: two distinct options values differing only in the
`import` field produce the same fingerprint under the same output-hash
configuration, refuting "changing any single field of options changes the
fingerprint". -/
theorem consume_shared_fingerprint_cex :
    (⟨"s", "k", none, false, false, none, none, false⟩ : ConsumeOptions)
        ≠ ⟨"s", "k", none, false, false, some "m", none, false⟩ ∧
    fingerprintOf ⟨"xxhash64", "hex"⟩ "ctx"
        ⟨"s", "k", none, false, false, none, none, false⟩
      = fingerprintOf ⟨"xxhash64", "hex"⟩ "ctx"
        ⟨"s", "k", none, false, false, some "m", none, false⟩ := by
  exact ⟨by decide, rfl⟩

/-- C4 amended: identical options and identical output-hash configuration
give identical fingerprints (the digest input is a pure function of them,
independent of the context); changing the `import` field alone never
changes the fingerprint; changing any other single field changes the
fingerprint, given for `required_version` that the displayed version text
changes — the only way two distinct `required_version` values display
alike is swapping an absent version with one whose text is "*", the
absent-version placeholder. -/
theorem consume_shared_fingerprint_sensitivity :
    (∀ (output : OutputOptions) (c1 c2 : String) (o1 o2 : ConsumeOptions),
      o1 = o2 → fingerprintOf output c1 o1 = fingerprintOf output c2 o2) ∧
    (∀ (output : OutputOptions) (context s k : String)
        (rv : Option ConsumeVersion) (sv sg : Bool)
        (imp1 imp2 ir : Option String) (eg : Bool),
      fingerprintOf output context ⟨s, k, rv, sv, sg, imp1, ir, eg⟩
        = fingerprintOf output context ⟨s, k, rv, sv, sg, imp2, ir, eg⟩) ∧
    (∀ (output : OutputOptions) (context s1 s2 k : String)
        (rv : Option ConsumeVersion) (sv sg : Bool)
        (imp ir : Option String) (eg : Bool), s1 ≠ s2 →
      fingerprintOf output context ⟨s1, k, rv, sv, sg, imp, ir, eg⟩
        ≠ fingerprintOf output context ⟨s2, k, rv, sv, sg, imp, ir, eg⟩) ∧
    (∀ (output : OutputOptions) (context s k1 k2 : String)
        (rv : Option ConsumeVersion) (sv sg : Bool)
        (imp ir : Option String) (eg : Bool), k1 ≠ k2 →
      fingerprintOf output context ⟨s, k1, rv, sv, sg, imp, ir, eg⟩
        ≠ fingerprintOf output context ⟨s, k2, rv, sv, sg, imp, ir, eg⟩) ∧
    (∀ (output : OutputOptions) (context s k : String)
        (rv1 rv2 : Option ConsumeVersion) (sv sg : Bool)
        (imp ir : Option String) (eg : Bool),
      versionDisplay rv1 ≠ versionDisplay rv2 →
      fingerprintOf output context ⟨s, k, rv1, sv, sg, imp, ir, eg⟩
        ≠ fingerprintOf output context ⟨s, k, rv2, sv, sg, imp, ir, eg⟩) ∧
    (∀ (rv1 rv2 : Option ConsumeVersion), rv1 ≠ rv2 →
      versionDisplay rv1 = versionDisplay rv2 →
      (rv1 = none ∧ rv2 = some ⟨"*"⟩) ∨ (rv1 = some ⟨"*"⟩ ∧ rv2 = none)) ∧
    (∀ (output : OutputOptions) (context s k : String)
        (rv : Option ConsumeVersion) (sv1 sv2 sg : Bool)
        (imp ir : Option String) (eg : Bool), sv1 ≠ sv2 →
      fingerprintOf output context ⟨s, k, rv, sv1, sg, imp, ir, eg⟩
        ≠ fingerprintOf output context ⟨s, k, rv, sv2, sg, imp, ir, eg⟩) ∧
    (∀ (output : OutputOptions) (context s k : String)
        (rv : Option ConsumeVersion) (sv sg1 sg2 : Bool)
        (imp ir : Option String) (eg : Bool), sg1 ≠ sg2 →
      fingerprintOf output context ⟨s, k, rv, sv, sg1, imp, ir, eg⟩
        ≠ fingerprintOf output context ⟨s, k, rv, sv, sg2, imp, ir, eg⟩) ∧
    (∀ (output : OutputOptions) (context s k : String)
        (rv : Option ConsumeVersion) (sv sg : Bool)
        (imp ir1 ir2 : Option String) (eg : Bool), ir1 ≠ ir2 →
      fingerprintOf output context ⟨s, k, rv, sv, sg, imp, ir1, eg⟩
        ≠ fingerprintOf output context ⟨s, k, rv, sv, sg, imp, ir2, eg⟩) ∧
    (∀ (output : OutputOptions) (context s k : String)
        (rv : Option ConsumeVersion) (sv sg : Bool)
        (imp ir : Option String) (eg1 eg2 : Bool), eg1 ≠ eg2 →
      fingerprintOf output context ⟨s, k, rv, sv, sg, imp, ir, eg1⟩
        ≠ fingerprintOf output context ⟨s, k, rv, sv, sg, imp, ir, eg2⟩) := by
  refine ⟨?_, ?_, ?_, ?_, ?_, ?_, ?_, ?_, ?_, ?_⟩
  · intro output c1 c2 o1 o2 h
    subst h
    exact (fingerprint_eq_iff output c1 c2 o1 o1).mpr rfl
  · intro output context s k rv sv sg imp1 imp2 ir eg
    exact (fingerprint_eq_iff output context context _ _).mpr rfl
  · intro output context s1 s2 k rv sv sg imp ir eg hne h
    exact hne (identifier_inj_scope s1 s2 k rv sv sg imp imp ir eg
      ((fingerprint_eq_iff output context context _ _).mp h))
  · intro output context s k1 k2 rv sv sg imp ir eg hne h
    exact hne (identifier_inj_key s k1 k2 rv sv sg imp imp ir eg
      ((fingerprint_eq_iff output context context _ _).mp h))
  · intro output context s k rv1 rv2 sv sg imp ir eg hne h
    exact hne (identifier_inj_version s k rv1 rv2 sv sg imp imp ir eg
      ((fingerprint_eq_iff output context context _ _).mp h))
  · exact fun rv1 rv2 hne h => versionDisplay_collision hne h
  · intro output context s k rv sv1 sv2 sg imp ir eg hne h
    exact hne (identifier_inj_strict s k rv sv1 sv2 sg imp imp ir eg
      ((fingerprint_eq_iff output context context _ _).mp h))
  · intro output context s k rv sv sg1 sg2 imp ir eg hne h
    exact hne (identifier_inj_singleton s k rv sv sg1 sg2 imp imp ir eg
      ((fingerprint_eq_iff output context context _ _).mp h))
  · intro output context s k rv sv sg imp ir1 ir2 eg hne h
    exact hne (identifier_inj_resolved s k rv sv sg imp imp ir1 ir2 eg
      ((fingerprint_eq_iff output context context _ _).mp h))
  · intro output context s k rv sv sg imp ir eg1 eg2 hne h
    exact hne (identifier_inj_eager s k rv sv sg imp imp ir eg1 eg2
      ((fingerprint_eq_iff output context context _ _).mp h))

/-- Witness for C4's amended theorem: each hypothesis-bearing clause
applied at a concrete input. -/
theorem consume_shared_fingerprint_sensitivity_witness :
    (fingerprintOf ⟨"xxhash64", "hex"⟩ "a"
        ⟨"s", "k", none, false, false, none, none, false⟩
      = fingerprintOf ⟨"xxhash64", "hex"⟩ "b"
        ⟨"s", "k", none, false, false, none, none, false⟩) ∧
    (fingerprintOf ⟨"xxhash64", "hex"⟩ "c"
        ⟨"s1", "k", none, false, false, none, none, false⟩
      ≠ fingerprintOf ⟨"xxhash64", "hex"⟩ "c"
        ⟨"s2", "k", none, false, false, none, none, false⟩) ∧
    (fingerprintOf ⟨"xxhash64", "hex"⟩ "c"
        ⟨"s", "k1", none, false, false, none, none, false⟩
      ≠ fingerprintOf ⟨"xxhash64", "hex"⟩ "c"
        ⟨"s", "k2", none, false, false, none, none, false⟩) ∧
    (fingerprintOf ⟨"xxhash64", "hex"⟩ "c"
        ⟨"s", "k", some ⟨"1.0.0"⟩, false, false, none, none, false⟩
      ≠ fingerprintOf ⟨"xxhash64", "hex"⟩ "c"
        ⟨"s", "k", none, false, false, none, none, false⟩) ∧
    (((none : Option ConsumeVersion) = none
        ∧ (some ⟨"*"⟩ : Option ConsumeVersion) = some ⟨"*"⟩)
      ∨ ((none : Option ConsumeVersion) = some ⟨"*"⟩
        ∧ (some ⟨"*"⟩ : Option ConsumeVersion) = none)) ∧
    (fingerprintOf ⟨"xxhash64", "hex"⟩ "c"
        ⟨"s", "k", none, true, false, none, none, false⟩
      ≠ fingerprintOf ⟨"xxhash64", "hex"⟩ "c"
        ⟨"s", "k", none, false, false, none, none, false⟩) ∧
    (fingerprintOf ⟨"xxhash64", "hex"⟩ "c"
        ⟨"s", "k", none, false, true, none, none, false⟩
      ≠ fingerprintOf ⟨"xxhash64", "hex"⟩ "c"
        ⟨"s", "k", none, false, false, none, none, false⟩) ∧
    (fingerprintOf ⟨"xxhash64", "hex"⟩ "c"
        ⟨"s", "k", none, false, false, none, some "p", false⟩
      ≠ fingerprintOf ⟨"xxhash64", "hex"⟩ "c"
        ⟨"s", "k", none, false, false, none, none, false⟩) ∧
    (fingerprintOf ⟨"xxhash64", "hex"⟩ "c"
        ⟨"s", "k", none, false, false, none, none, true⟩
      ≠ fingerprintOf ⟨"xxhash64", "hex"⟩ "c"
        ⟨"s", "k", none, false, false, none, none, false⟩) := by
  obtain ⟨h1, _h2, h3, h4, h5, h6, h7, h8, h9, h10⟩ :=
    consume_shared_fingerprint_sensitivity
  exact ⟨h1 ⟨"xxhash64", "hex"⟩ "a" "b" _ _ rfl,
    h3 ⟨"xxhash64", "hex"⟩ "c" "s1" "s2" "k" none false false none none false
      (by decide),
    h4 ⟨"xxhash64", "hex"⟩ "c" "s" "k1" "k2" none false false none none false
      (by decide),
    h5 ⟨"xxhash64", "hex"⟩ "c" "s" "k" (some ⟨"1.0.0"⟩) none false false none
      none false (by decide),
    h6 none (some ⟨"*"⟩) (by decide) rfl,
    h7 ⟨"xxhash64", "hex"⟩ "c" "s" "k" none true false false none none false
      (by decide),
    h8 ⟨"xxhash64", "hex"⟩ "c" "s" "k" none false true false none none false
      (by decide),
    h9 ⟨"xxhash64", "hex"⟩ "c" "s" "k" none false false none (some "p") none
      false (by decide),
    h10 ⟨"xxhash64", "hex"⟩ "c" "s" "k" none false false none none true false
      (by decide)⟩

/-- C5: two entities are equal iff their identities are equal; the hash
feeds a fixed internal type tag followed by the identity; equal entities
feed identical data to any hasher. -/
theorem consume_shared_eq_hash_law :
    (∀ a b : ConsumeSharedModule,
      a.moduleEq b = true ↔ a.identifier = b.identifier) ∧
    (∀ a : ConsumeSharedModule,
      a.hashTrace = ["__rspack_internal__ConsumeSharedModule", a.identifier]) ∧
    (∀ a b : ConsumeSharedModule,
      a.moduleEq b = true → a.hashTrace = b.hashTrace) := by
  refine ⟨?_, fun a => rfl, ?_⟩
  · intro a b
    simp [ConsumeSharedModule.moduleEq]
  · intro a b h
    simp only [ConsumeSharedModule.moduleEq, beq_iff_eq] at h
    simp [ConsumeSharedModule.hashTrace, h]

/-- Witness for C5: two concrete modules built from the same options in
different contexts compare equal and feed identical hash data. -/
theorem consume_shared_eq_hash_law_witness :
    (ConsumeSharedModule.new "a"
        ⟨"s", "k", none, false, false, none, none, false⟩).hashTrace
      = (ConsumeSharedModule.new "b"
        ⟨"s", "k", none, false, false, none, none, false⟩).hashTrace :=
  consume_shared_eq_hash_law.2.2
    (ConsumeSharedModule.new "a"
      ⟨"s", "k", none, false, false, none, none, false⟩)
    (ConsumeSharedModule.new "b"
      ⟨"s", "k", none, false, false, none, none, false⟩)
    (by decide)

theorem mem_insertRequirement (s : List RuntimeGlobal) (g x : RuntimeGlobal)
    (h : x ∈ s) : x ∈ insertRequirement s g := by
  unfold insertRequirement
  split
  · exact h
  · exact List.mem_append_left _ h

theorem mem_foldl_insertRequirement (l : List RuntimeGlobal)
    (s : List RuntimeGlobal) (x : RuntimeGlobal) (h : x ∈ s) :
    x ∈ l.foldl insertRequirement s := by
  induction l generalizing s with
  | nil => exact h
  | cons a t ih => exact ih _ (mem_insertRequirement _ _ _ h)

/-- C6: every successful code generation's requirement set contains the
SHARE_SCOPE_MAP capability requirement, for every module state, stringify
utility, factory builders and runtime target. -/
theorem consume_shared_share_scope_map_required
    (m : ConsumeSharedModule) (stringify : String → String)
    (builders : FactoryBuilders) (runtime : Option RuntimeSpec)
    (r : CodeGenerationResult)
    (h : m.code_generation stringify builders runtime = some r) :
    RuntimeGlobal.SHARE_SCOPE_MAP ∈ r.runtime_requirements := by
  have hbase : RuntimeGlobal.SHARE_SCOPE_MAP
      ∈ insertRequirement [] RuntimeGlobal.SHARE_SCOPE_MAP := by
    simp [insertRequirement]
  obtain ⟨blocks, deps, idf, li, ri, cx, o⟩ := m
  obtain ⟨s, k, rv, sv, sg, imp, ir, eg⟩ := o
  cases imp with
  | none =>
    simp only [ConsumeSharedModule.code_generation] at h
    injection h with h2
    rw [← h2]
    exact hbase
  | some fb =>
    cases eg with
    | true =>
      cases deps with
      | nil =>
        simp only [ConsumeSharedModule.code_generation,
          ConsumeSharedModule.get_dependencies, List.head?, if_true] at h
        exact Option.noConfusion h
      | cons d ds =>
        simp only [ConsumeSharedModule.code_generation,
          ConsumeSharedModule.get_dependencies, List.head?, if_true] at h
        injection h with h2
        rw [← h2]
        exact mem_foldl_insertRequirement _ _ _ hbase
    | false =>
      cases blocks with
      | nil =>
        simp only [ConsumeSharedModule.code_generation,
          ConsumeSharedModule.get_blocks, List.head?, Bool.false_eq_true,
          if_false] at h
        exact Option.noConfusion h
      | cons b bs =>
        simp only [ConsumeSharedModule.code_generation,
          ConsumeSharedModule.get_blocks, List.head?, Bool.false_eq_true,
          if_false] at h
        injection h with h2
        rw [← h2]
        exact mem_foldl_insertRequirement _ _ _ hbase

/-- Witness for C6 at a concrete module with no import. -/
theorem consume_shared_share_scope_map_required_witness :
    RuntimeGlobal.SHARE_SCOPE_MAP ∈
      [RuntimeGlobal.SHARE_SCOPE_MAP] :=
  consume_shared_share_scope_map_required
    (ConsumeSharedModule.new "ctx"
      ⟨"s", "k", none, false, false, none, none, false⟩)
    (fun s => s)
    ⟨fun _ _ => ("", []), fun _ _ => ("", [])⟩
    none
    ⟨[RuntimeGlobal.SHARE_SCOPE_MAP],
      ⟨"s", "k", none, none, false, false, false, none⟩⟩
    rfl

/-- C7: on the post-build module, code generation packages a payload whose
fields are copied verbatim from options; the fallback expression is present
exactly when `options.import` is, produced by the synchronous factory bound
to the single built edge when eager and by the asynchronous factory bound
to the single built block otherwise; and the registered edge and block
lists are exactly those the build produced. -/
theorem consume_shared_payload (context : String) (output : OutputOptions)
    (o : ConsumeOptions) (stringify : String → String)
    (builders : FactoryBuilders) (runtime : Option RuntimeSpec) :
    ((registerBuildResult (ConsumeSharedModule.new context o)
          ((ConsumeSharedModule.new context o).build output)).code_generation
          stringify builders runtime).map CodeGenerationResult.data
      = some
          { share_scope := o.share_scope
            share_key := o.share_key
            import_request := o.import_request
            required_version := o.required_version
            strict_version := o.strict_version
            singleton := o.singleton
            eager := o.eager
            fallback := o.import_request.map (fun f =>
              if o.eager then
                (builders.sync_factory
                  (ConsumeSharedFallbackDependency.new f) f).1
              else
                (builders.async_factory
                  ((AsyncDependenciesBlock.new
                      (identifierOf o)).add_dependency
                    (ConsumeSharedFallbackDependency.new f)) f).1) } ∧
    (registerBuildResult (ConsumeSharedModule.new context o)
        ((ConsumeSharedModule.new context o).build output)).get_dependencies
      = ((ConsumeSharedModule.new context o).build output).dependencies ∧
    (registerBuildResult (ConsumeSharedModule.new context o)
        ((ConsumeSharedModule.new context o).build output)).get_blocks
      = ((ConsumeSharedModule.new context o).build output).blocks := by
  obtain ⟨s, k, rv, sv, sg, imp, ir, eg⟩ := o
  cases imp <;> cases eg <;>
    simp [ConsumeSharedModule.new, ConsumeSharedModule.build,
      registerBuildResult, ConsumeSharedModule.add_dependency_id,
      ConsumeSharedModule.add_block_id, ConsumeSharedModule.get_dependencies,
      ConsumeSharedModule.get_blocks, ConsumeSharedModule.code_generation,
      ConsumeSharedFallbackDependency.new, AsyncDependenciesBlock.new,
      AsyncDependenciesBlock.add_dependency, digestOf,
      ConsumeSharedModule.hashTrace, identifierOf]

/-- C8: identity derivation is a pure, deterministic function of options:
equal options values give equal canonical identifier, readable identifier
and lib_ident, across any two constructions, in any two contexts. -/
theorem consume_shared_identity_deterministic (c1 c2 : String)
    (o1 o2 : ConsumeOptions) (h : o1 = o2) :
    identifierOf o1 = identifierOf o2 ∧
    (ConsumeSharedModule.new c1 o1).identifier
      = (ConsumeSharedModule.new c2 o2).identifier ∧
    (ConsumeSharedModule.new c1 o1).readable_identifier
      = (ConsumeSharedModule.new c2 o2).readable_identifier ∧
    (ConsumeSharedModule.new c1 o1).lib_ident
      = (ConsumeSharedModule.new c2 o2).lib_ident := by
  subst h
  exact ⟨rfl, rfl, rfl, rfl⟩

/-- Witness for C8 at a concrete options value and two contexts. -/
theorem consume_shared_identity_deterministic_witness :
    identifierOf ⟨"s", "k", none, false, false, none, none, false⟩
      = identifierOf ⟨"s", "k", none, false, false, none, none, false⟩ ∧
    (ConsumeSharedModule.new "a"
        ⟨"s", "k", none, false, false, none, none, false⟩).identifier
      = (ConsumeSharedModule.new "b"
        ⟨"s", "k", none, false, false, none, none, false⟩).identifier ∧
    (ConsumeSharedModule.new "a"
        ⟨"s", "k", none, false, false, none, none, false⟩).readable_identifier
      = (ConsumeSharedModule.new "b"
        ⟨"s", "k", none, false, false, none, none, false⟩).readable_identifier ∧
    (ConsumeSharedModule.new "a"
        ⟨"s", "k", none, false, false, none, none, false⟩).lib_ident
      = (ConsumeSharedModule.new "b"
        ⟨"s", "k", none, false, false, none, none, false⟩).lib_ident :=
  consume_shared_identity_deterministic "a" "b"
    ⟨"s", "k", none, false, false, none, none, false⟩
    ⟨"s", "k", none, false, false, none, none, false⟩ rfl

/-- C9: the strict marker and the singleton marker use the same annotation
text, so the concrete pair strict-only vs singleton-only (all else equal)
yields distinct options values with identical canonical and readable
identifiers, and the two entities compare equal. -/
theorem consume_shared_strict_singleton_marker :
    (⟨"s", "k", some ⟨"1.0.0"⟩, true, false, none, none, false⟩
        : ConsumeOptions)
      ≠ ⟨"s", "k", some ⟨"1.0.0"⟩, false, true, none, none, false⟩ ∧
    identifierOf ⟨"s", "k", some ⟨"1.0.0"⟩, true, false, none, none, false⟩
      = identifierOf
        ⟨"s", "k", some ⟨"1.0.0"⟩, false, true, none, none, false⟩ ∧
    (ConsumeSharedModule.new "ctx"
        ⟨"s", "k", some ⟨"1.0.0"⟩, true, false, none, none, false⟩
      ).readable_identifier
      = (ConsumeSharedModule.new "ctx"
        ⟨"s", "k", some ⟨"1.0.0"⟩, false, true, none, none, false⟩
      ).readable_identifier ∧
    (ConsumeSharedModule.new "ctx"
        ⟨"s", "k", some ⟨"1.0.0"⟩, true, false, none, none, false⟩).moduleEq
      (ConsumeSharedModule.new "ctx"
        ⟨"s", "k", some ⟨"1.0.0"⟩, false, true, none, none, false⟩)
      = true := by
  exact ⟨by decide, by decide, by decide, by decide⟩

/-- C10: the canonical and readable identifiers do not depend on
`options.import` — any two options equal except in `import` give equal
identifiers and modules that compare equal — while at a concrete pair the
lib_ident strings and the post-build edge lists differ. -/
theorem consume_shared_identity_ignores_import :
    (∀ (context s k : String) (rv : Option ConsumeVersion) (sv sg : Bool)
        (imp1 imp2 ir : Option String) (eg : Bool),
      identifierOf ⟨s, k, rv, sv, sg, imp1, ir, eg⟩
        = identifierOf ⟨s, k, rv, sv, sg, imp2, ir, eg⟩ ∧
      (ConsumeSharedModule.new context
          ⟨s, k, rv, sv, sg, imp1, ir, eg⟩).readable_identifier
        = (ConsumeSharedModule.new context
          ⟨s, k, rv, sv, sg, imp2, ir, eg⟩).readable_identifier ∧
      (ConsumeSharedModule.new context
          ⟨s, k, rv, sv, sg, imp1, ir, eg⟩).moduleEq
        (ConsumeSharedModule.new context ⟨s, k, rv, sv, sg, imp2, ir, eg⟩)
        = true) ∧
    (ConsumeSharedModule.new "ctx"
        ⟨"s", "k", none, false, false, some "m", none, true⟩).lib_ident
      ≠ (ConsumeSharedModule.new "ctx"
        ⟨"s", "k", none, false, false, none, none, true⟩).lib_ident ∧
    ((ConsumeSharedModule.new "ctx"
        ⟨"s", "k", none, false, false, some "m", none, true⟩).build
          ⟨"xxhash64", "hex"⟩).dependencies
      ≠ ((ConsumeSharedModule.new "ctx"
        ⟨"s", "k", none, false, false, none, none, true⟩).build
          ⟨"xxhash64", "hex"⟩).dependencies := by
  refine ⟨?_, by decide, by decide⟩
  intro context s k rv sv sg imp1 imp2 ir eg
  refine ⟨rfl, rfl, ?_⟩
  simp only [ConsumeSharedModule.moduleEq, ConsumeSharedModule.new,
    beq_iff_eq]
  rfl
